import Mathlib

/-!
Verification of the Glue Data Catalog module (`src/rust/src/data_catalog/glue/mod.rs`).

Strings are modelled as `List Char`.  The remote Glue service is modelled as an
explicit function argument; the list of issued requests is returned alongside the
result (explicit state passing for the network effect).
-/

/-- Strings of the Rust code, modelled as lists of characters. -/
abbrev Str := List Char

/-- `PLACEHOLDER_SUFFIX` (mod.rs line 66): placeholder suffix created by Spark in
the Glue Data Catalog location. -/
def PLACEHOLDER_SUFFIX : Str := "-__PLACEHOLDER__".toList

/-- Embeds `l.replace("s3a", "s3")` (mod.rs line 96): Rust `str::replace` with the
fixed pattern `"s3a"` and replacement `"s3"`, i.e. every leftmost non-overlapping
occurrence of `s3a` is rewritten to `s3`. -/
def replaceS3a : Str → Str
  | [] => []
  | 's' :: '3' :: 'a' :: rest => 's' :: '3' :: replaceS3a rest
  | c :: rest => c :: replaceS3a rest

/-- Embeds the placeholder-stripping step of `get_table_storage_location`
(mod.rs lines 101-108): if the (already rewritten) location ends with
`PLACEHOLDER_SUFFIX`, the slice `location[..location.len() - PLACEHOLDER_SUFFIX.len()]`
is taken (the guard guarantees the cut sits on the suffix boundary, so byte and
character indices agree). -/
def stripPlaceholder (location : Str) : Str :=
  if PLACEHOLDER_SUFFIX.isSuffixOf location then
    location.take (location.length - PLACEHOLDER_SUFFIX.length)
  else
    location

/-- `rusoto_glue::StorageDescriptor`, with the fields the module populates or reads. -/
structure StorageDescriptor where
  bucket_columns : Option (List Str)
  columns : Option (List Str)
  compressed : Option Bool
  input_format : Option Str
  location : Option Str
  number_of_buckets : Option Int
  output_format : Option Str
  parameters : Option (List (Str × Str))
  schema_reference : Option Str
  serde_info : Option Str
  skewed_info : Option Str
  sort_columns : Option (List Str)
  stored_as_sub_directories : Option Bool
  deriving DecidableEq

/-- `rusoto_glue::Table`, restricted to the field this module reads. -/
structure Table where
  storage_descriptor : Option StorageDescriptor
  deriving DecidableEq

/-- `rusoto_glue::GetTableRequest` (mod.rs lines 79-83). -/
structure GetTableRequest where
  catalog_id : Option Str
  database_name : Str
  name : Str
  deriving DecidableEq

/-- The response of a successful `get_table` call, restricted to the field this
module reads. -/
structure GetTableResponse where
  table : Option Table
  deriving DecidableEq

/-- `rusoto_glue::TableInput` (mod.rs lines 126-154). -/
structure TableInput where
  description : Option Str
  last_access_time : Option Int
  last_analyzed_time : Option Int
  name : Str
  owner : Option Str
  parameters : Option (List (Str × Str))
  partition_keys : Option (List Str)
  retention : Option Int
  storage_descriptor : Option StorageDescriptor
  table_type : Option Str
  target_table : Option Str
  view_expanded_text : Option Str
  view_original_text : Option Str
  deriving DecidableEq

/-- `rusoto_glue::CreateTableRequest` (mod.rs lines 124-157). -/
structure CreateTableRequest where
  database_name : Str
  table_input : TableInput
  catalog_id : Option Str
  partition_indexes : Option (List Str)
  deriving DecidableEq

/-- `DataCatalogError`, with the variants this module constructs.  `ε` is the
opaque rusoto service/transport error type; `GlueGetTableError` stands for the
`From` conversion applied by the `?` operator on a failed `get_table` call (the
error enum itself is declared outside this module). -/
inductive DataCatalogError (ε : Type) where
  | MissingMetadata (metadata : Str)
  | InconsistentDeltaTableMetadata (metadata : Str)
  | GlueGetTableError (source : ε)
  | GlueCreateTableError (source : ε)
  deriving DecidableEq

/-- `DeltaTable`, restricted to the field this module reads (mod.rs line 140). -/
structure DeltaTable where
  table_uri : Str
  deriving DecidableEq

/-- `DeltaTableMetaData`, restricted to the fields this module reads
(mod.rs lines 118, 127). -/
structure DeltaTableMetaData where
  name : Option Str
  description : Option Str
  deriving DecidableEq

/-- Embeds `get_table_storage_location` (mod.rs lines 71-111).  The remote call is
the function `client`; the `?` on the awaited call propagates a wrapped transport
error.  A successful response is destructured exactly as in the source: missing
table / storage descriptor / location each give a named `MissingMetadata` error,
the location is passed through `replace("s3a", "s3")`, and then the placeholder
suffix, if present, is stripped. -/
def get_table_storage_location {ε : Type}
    (client : GetTableRequest → Except ε GetTableResponse)
    (catalog_id : Option Str) (database_name : Str) (table_name : Str) :
    Except (DataCatalogError ε) Str :=
  match client { catalog_id := catalog_id, database_name := database_name, name := table_name } with
  | Except.error e => Except.error (DataCatalogError.GlueGetTableError e)
  | Except.ok response =>
    let location : Except (DataCatalogError ε) Str :=
      match response.table with
      | none => Except.error (DataCatalogError.MissingMetadata ("Table".toList))
      | some t =>
        match t.storage_descriptor with
        | none => Except.error (DataCatalogError.MissingMetadata ("Storage Descriptor".toList))
        | some sd =>
          match sd.location with
          | none => Except.error (DataCatalogError.MissingMetadata ("Location".toList))
          | some l => Except.ok (replaceS3a l)
    match location with
    | Except.ok location => Except.ok (stripPlaceholder location)
    | Except.error err => Except.error err

/-- The `CreateTableRequest` built by the closure passed to `table_name.map` in
`record_table_storage_location` (mod.rs lines 123-158): the storage descriptor
location is the table handle's URI, the table name and description come from the
supplied metadata, the database name is the fixed `"unknown"`, the catalog id is
the supplied one, and every other attribute is left unset. -/
def mkCreateTableRequest (catalog_id : Str) (table : DeltaTable)
    (name : Str) (metadata : DeltaTableMetaData) : CreateTableRequest :=
  { database_name := "unknown".toList
    table_input :=
      { description := metadata.description
        last_access_time := none
        last_analyzed_time := none
        name := name
        owner := none
        parameters := none
        partition_keys := none
        retention := none
        storage_descriptor := some
          { bucket_columns := none
            columns := none
            compressed := none
            input_format := none
            location := some table.table_uri
            number_of_buckets := none
            output_format := none
            parameters := none
            schema_reference := none
            serde_info := none
            skewed_info := none
            sort_columns := none
            stored_as_sub_directories := none }
        table_type := none
        target_table := none
        view_expanded_text := none
        view_original_text := none }
    catalog_id := some catalog_id
    partition_indexes := none }

/-- Embeds `record_table_storage_location` (mod.rs lines 112-170).  The remote
`create_table` call is the function `create_table`; the second component of the
result is the list of requests actually issued to the remote service. -/
def record_table_storage_location {ε : Type}
    (create_table : CreateTableRequest → Except ε Unit)
    (catalog_id : Str) (table : DeltaTable) (metadata : DeltaTableMetaData) :
    Except (DataCatalogError ε) Unit × List CreateTableRequest :=
  let table_name : Except (DataCatalogError ε) Str :=
    match metadata.name with
    | some n => Except.ok n
    | none => Except.error (DataCatalogError.InconsistentDeltaTableMetadata ("name".toList))
  let request : Except (DataCatalogError ε) CreateTableRequest :=
    table_name.map fun name => mkCreateTableRequest catalog_id table name metadata
  match request with
  | Except.ok res =>
    match create_table res with
    | Except.ok _ => (Except.ok (), [res])
    | Except.error failure =>
      (Except.error (DataCatalogError.GlueCreateTableError failure), [res])
  | Except.error err => (Except.error err, [])

/-- `rusoto_core::Region`, as used by this module. -/
inductive Region where
  | Custom (name : Str) (endpoint : Str)
  | Default
  deriving DecidableEq

/-- An opaque `rusoto_core::HttpClient` handle. -/
structure HttpClient where
  deriving DecidableEq

/-- An opaque `rusoto_sts::WebIdentityProvider`. -/
structure WebIdentityProvider where
  deriving DecidableEq

/-- `WebIdentityProvider::from_k8s_env()` (mod.rs line 44): the provider built
from the ambient federated-identity environment. -/
def WebIdentityProvider.from_k8s_env : WebIdentityProvider := {}

/-- `rusoto_credential::AutoRefreshingProvider` wrapping a provider. -/
structure AutoRefreshingProvider (P : Type) where
  inner : P
  deriving DecidableEq

/-- A constructed `GlueClient`, tagged by the constructor used (mod.rs lines
50-55): `new_with` with an explicit HTTP transport, a credential provider and a
region, or `new` from the region alone (default provider chain). -/
inductive GlueClient where
  | new_with (http : HttpClient) (provider : AutoRefreshingProvider WebIdentityProvider)
      (region : Region)
  | new (region : Region)
  deriving DecidableEq

/-- Embeds `get_web_identity_provider` (mod.rs lines 42-46).  Wrapping the
provider in the auto-refresh adapter is fallible; the fallible constructor
`AutoRefreshingProvider::new` is the capability `auto_new`. -/
def get_web_identity_provider {κ : Type}
    (auto_new : WebIdentityProvider → Except κ (AutoRefreshingProvider WebIdentityProvider)) :
    Except κ (AutoRefreshingProvider WebIdentityProvider) :=
  auto_new WebIdentityProvider.from_k8s_env

/-- Embeds `create_glue_client` (mod.rs lines 48-57).  The process environment is
the function `env`; `http_new` is the fallible `HttpClient::new()` and `auto_new`
the fallible auto-refresh wrapper.  If `AWS_WEB_IDENTITY_TOKEN_FILE` is present
the client is built with `new_with` (transport, web-identity provider, region);
otherwise with `new` from the region alone. -/
def create_glue_client {κ : Type} (env : Str → Option Str)
    (http_new : Except κ HttpClient)
    (auto_new : WebIdentityProvider → Except κ (AutoRefreshingProvider WebIdentityProvider))
    (region : Region) : Except κ GlueClient :=
  match env ("AWS_WEB_IDENTITY_TOKEN_FILE".toList) with
  | some _ =>
    match http_new with
    | Except.error e => Except.error e
    | Except.ok http =>
      match get_web_identity_provider auto_new with
      | Except.error e => Except.error e
      | Except.ok provider => Except.ok (GlueClient.new_with http provider region)
  | none => Except.ok (GlueClient.new region)

/-- A `get_table` response whose table and storage descriptor are present and
whose location is `l` (test fixture for the theorems below). -/
def mkResponse (l : Option Str) : GetTableResponse :=
  { table := some
      { storage_descriptor := some
          { bucket_columns := none
            columns := none
            compressed := none
            input_format := none
            location := l
            number_of_buckets := none
            output_format := none
            parameters := none
            schema_reference := none
            serde_info := none
            skewed_info := none
            sort_columns := none
            stored_as_sub_directories := none } } }

/-! ### Helper lemmas about the rewrite and strip steps -/

theorem replaceS3a_cons_ne (c : Char) (cs : Str)
    (h : ∀ r, ¬(c = 's' ∧ cs = '3' :: 'a' :: r)) :
    replaceS3a (c :: cs) = c :: replaceS3a cs := by
  rw [replaceS3a.eq_def]
  split
  · rename_i heq
    exact absurd heq (by simp)
  · rename_i rest heq
    injection heq with hc hcs
    exact absurd ⟨hc, hcs⟩ (h rest)
  · rename_i c' rest' hne heq
    injection heq with hc hcs
    rw [hc, hcs]

theorem replaceS3a_append (t : Str)
    (h1 : ∀ r, t ≠ 'a' :: r) (h2 : ∀ r, t ≠ '3' :: 'a' :: r)
    (h3 : replaceS3a t = t) (a : Str) :
    replaceS3a (a ++ t) = replaceS3a a ++ t := by
  induction a using replaceS3a.induct with
  | case1 => simpa using h3
  | case2 rest ih => simp [replaceS3a, ih]
  | case3 c rest h ih =>
    have hl : ∀ r, ¬(c = 's' ∧ rest ++ t = '3' :: 'a' :: r) := by
      rintro r ⟨hc, hr⟩
      rcases rest with _ | ⟨x, rest'⟩
      · exact h2 _ hr
      · rw [List.cons_append] at hr
        injection hr with hx hrest
        subst hx
        rcases rest' with _ | ⟨y, rest''⟩
        · exact h1 _ (by simpa using hrest)
        · rw [List.cons_append] at hrest
          injection hrest with hy hrest2
          subst hy
          exact h rest'' hc rfl
    have hr : ∀ r, ¬(c = 's' ∧ rest = '3' :: 'a' :: r) := by
      rintro r ⟨hc, hrest⟩
      exact h r hc hrest
    rw [List.cons_append, replaceS3a_cons_ne c (rest ++ t) hl,
      replaceS3a_cons_ne c rest hr, ih, List.cons_append]

theorem replaceS3a_append_suffix (a : Str) :
    replaceS3a (a ++ PLACEHOLDER_SUFFIX) = replaceS3a a ++ PLACEHOLDER_SUFFIX := by
  refine replaceS3a_append PLACEHOLDER_SUFFIX ?_ ?_ (by decide) a
  · intro r h
    have h1 : PLACEHOLDER_SUFFIX.take 1 = ['a'] := by rw [h]; rfl
    exact absurd h1 (by decide)
  · intro r h
    have h2 : PLACEHOLDER_SUFFIX.take 2 = ['3', 'a'] := by rw [h]; rfl
    exact absurd h2 (by decide)

theorem replaceS3a_scheme (r : Str) :
    replaceS3a (("s3a://".toList) ++ r) = ("s3://".toList) ++ replaceS3a r := rfl

theorem stripPlaceholder_append (x : Str) :
    stripPlaceholder (x ++ PLACEHOLDER_SUFFIX) = x := by
  unfold stripPlaceholder
  rw [if_pos]
  · rw [List.length_append, Nat.add_sub_cancel, List.take_left]
  · exact List.isSuffixOf_iff_suffix.mpr (List.suffix_append x PLACEHOLDER_SUFFIX)

theorem exists_of_isSuffixOf {s l : Str} (h : s.isSuffixOf l) :
    ∃ a, l = a ++ s := by
  rcases List.isSuffixOf_iff_suffix.mp h with ⟨a, ha⟩
  exact ⟨a, ha.symm⟩

theorem get_location_spec {ε : Type} (catalog_id : Option Str)
    (database_name table_name : Str) (l : Str) :
    get_table_storage_location
      (fun _ => (Except.ok (mkResponse (some l)) : Except ε GetTableResponse))
      catalog_id database_name table_name
      = Except.ok (stripPlaceholder (replaceS3a l)) := rfl

theorem record_none_eq {ε : Type} (create_table : CreateTableRequest → Except ε Unit)
    (catalog_id : Str) (table : DeltaTable) (metadata : DeltaTableMetaData)
    (h : metadata.name = none) :
    record_table_storage_location create_table catalog_id table metadata
      = (Except.error (DataCatalogError.InconsistentDeltaTableMetadata ("name".toList)), []) := by
  unfold record_table_storage_location
  rw [h]
  rfl

theorem record_some_eq {ε : Type} (create_table : CreateTableRequest → Except ε Unit)
    (catalog_id : Str) (table : DeltaTable) (metadata : DeltaTableMetaData) (n : Str)
    (h : metadata.name = some n) :
    record_table_storage_location create_table catalog_id table metadata
      = match create_table (mkCreateTableRequest catalog_id table n metadata) with
        | Except.ok _ => (Except.ok (), [mkCreateTableRequest catalog_id table n metadata])
        | Except.error failure =>
          (Except.error (DataCatalogError.GlueCreateTableError failure),
            [mkCreateTableRequest catalog_id table n metadata]) := by
  unfold record_table_storage_location
  rw [h]
  rfl

theorem record_some_snd {ε : Type} (create_table : CreateTableRequest → Except ε Unit)
    (catalog_id : Str) (table : DeltaTable) (metadata : DeltaTableMetaData) (n : Str)
    (h : metadata.name = some n) :
    (record_table_storage_location create_table catalog_id table metadata).2
      = [mkCreateTableRequest catalog_id table n metadata] := by
  rw [record_some_eq create_table catalog_id table metadata n h]
  cases create_table (mkCreateTableRequest catalog_id table n metadata) <;> rfl

theorem record_some_fst_err {ε : Type} (create_table : CreateTableRequest → Except ε Unit)
    (catalog_id : Str) (table : DeltaTable) (metadata : DeltaTableMetaData) (n : Str)
    (h : metadata.name = some n) (e : ε)
    (hc : create_table (mkCreateTableRequest catalog_id table n metadata) = Except.error e) :
    (record_table_storage_location create_table catalog_id table metadata).1
      = Except.error (DataCatalogError.GlueCreateTableError e) := by
  rw [record_some_eq create_table catalog_id table metadata n h, hc]

/-! ### Test fixtures shared by witnesses and counterexamples -/

/-- A remote `create_table` that always succeeds. -/
def exClientOk : CreateTableRequest → Except Unit Unit := fun _ => Except.ok ()

/-- A concrete catalog id. -/
def exCatalogId : Str := "123456789012".toList

/-- A concrete table handle. -/
def exTable : DeltaTable := { table_uri := "file:///tmp/t".toList }

/-- Concrete metadata carrying a table name and a description. -/
def exMetadata : DeltaTableMetaData :=
  { name := some ("tbl".toList), description := some ("a delta table".toList) }

/-- The request `record_table_storage_location` builds from the fixtures above. -/
def exRequest : CreateTableRequest :=
  mkCreateTableRequest exCatalogId exTable ("tbl".toList) exMetadata

/-! ### Claims -/

/-- Claim C1, counterexample: on the location `s3a://bucket/s3a/t` (`s3a` scheme,
no placeholder suffix) `get_table_storage_location` returns `s3://bucket/s3/t`:
the occurrence of `s3a` later in the path is rewritten too, so the claim that
only the scheme token changes and every later occurrence of `s3a` is left
unchanged is false. -/
theorem C1_counterexample :
    PLACEHOLDER_SUFFIX.isSuffixOf ("s3a://bucket/s3a/t".toList) = false
    ∧ get_table_storage_location
        (fun _ => (Except.ok (mkResponse (some ("s3a://bucket/s3a/t".toList)))
          : Except Unit GetTableResponse))
        none ("db".toList) ("t".toList)
        = Except.ok ("s3://bucket/s3/t".toList)
    ∧ ("s3://bucket/s3/t".toList : Str) ≠ ("s3://bucket/s3a/t".toList) :=
  ⟨by decide, rfl, by decide⟩

/-- Claim C1 (amended): for every `get_table` response whose location uses the
`s3a` scheme and whose rewritten form does not end with the placeholder suffix,
`get_table_storage_location` rewrites every leftmost non-overlapping occurrence
of the substring `s3a` to `s3` — in particular the scheme token, so the result
carries the `s3` scheme — and returns the result of that rewrite; occurrences of
`s3a` later in the location are rewritten as well. -/
theorem C1_amended_rewrite {ε : Type} (catalog_id : Option Str)
    (database_name table_name : Str) (l : Str)
    (hscheme : ("s3a://".toList).isPrefixOf l = true)
    (hsuffix : PLACEHOLDER_SUFFIX.isSuffixOf (replaceS3a l) = false) :
    get_table_storage_location
      (fun _ => (Except.ok (mkResponse (some l)) : Except ε GetTableResponse))
      catalog_id database_name table_name
      = Except.ok (replaceS3a l)
    ∧ ("s3://".toList).isPrefixOf (replaceS3a l) = true := by
  constructor
  · rw [get_location_spec]
    simp [stripPlaceholder, hsuffix]
  · rcases List.isPrefixOf_iff_prefix.mp hscheme with ⟨r, hr⟩
    rw [← hr, replaceS3a_scheme]
    exact List.isPrefixOf_iff_prefix.mpr ⟨replaceS3a r, rfl⟩

/-- Witness for Claim C1 (amended) at the spec's own example `s3a://bucket/t`. -/
theorem C1_amended_witness :
    ("s3a://".toList).isPrefixOf ("s3a://bucket/t".toList) = true
    ∧ PLACEHOLDER_SUFFIX.isSuffixOf (replaceS3a ("s3a://bucket/t".toList)) = false
    ∧ get_table_storage_location
        (fun _ => (Except.ok (mkResponse (some ("s3a://bucket/t".toList)))
          : Except Unit GetTableResponse))
        none ("db".toList) ("t".toList)
        = Except.ok ("s3://bucket/t".toList)
    ∧ ("s3://".toList).isPrefixOf (replaceS3a ("s3a://bucket/t".toList)) = true :=
  ⟨by decide, by decide,
    ((C1_amended_rewrite none ("db".toList) ("t".toList) ("s3a://bucket/t".toList)
      (by decide) (by decide)).1).trans (congrArg Except.ok (by decide)),
    (@C1_amended_rewrite Unit none ("db".toList) ("t".toList) ("s3a://bucket/t".toList)
      (by decide) (by decide)).2⟩

/-- Claim C2: for every `get_table` response whose location ends with
`PLACEHOLDER_SUFFIX`, `get_table_storage_location` returns the location with
exactly that trailing suffix removed and no other character altered apart from
the `s3a`-to-`s3` rewrite, which still applies (the result is the rewrite of the
location minus the suffix). -/
theorem C2_suffix_stripped {ε : Type} (catalog_id : Option Str)
    (database_name table_name : Str) (l : Str)
    (h : PLACEHOLDER_SUFFIX.isSuffixOf l = true) :
    get_table_storage_location
      (fun _ => (Except.ok (mkResponse (some l)) : Except ε GetTableResponse))
      catalog_id database_name table_name
      = Except.ok (replaceS3a (l.take (l.length - PLACEHOLDER_SUFFIX.length))) := by
  rcases exists_of_isSuffixOf h with ⟨a, rfl⟩
  rw [get_location_spec, replaceS3a_append_suffix, stripPlaceholder_append,
    List.length_append, Nat.add_sub_cancel, List.take_left]

/-- Witness for Claim C2 at the spec's example
`s3a://bucket/db/table-__PLACEHOLDER__` → `s3://bucket/db/table`. -/
theorem C2_witness :
    PLACEHOLDER_SUFFIX.isSuffixOf ("s3a://bucket/db/table-__PLACEHOLDER__".toList) = true
    ∧ get_table_storage_location
        (fun _ => (Except.ok (mkResponse (some ("s3a://bucket/db/table-__PLACEHOLDER__".toList)))
          : Except Unit GetTableResponse))
        none ("db".toList) ("table".toList)
        = Except.ok ("s3://bucket/db/table".toList) :=
  ⟨by decide,
    (C2_suffix_stripped none ("db".toList) ("table".toList)
        ("s3a://bucket/db/table-__PLACEHOLDER__".toList) (by decide)).trans
      (congrArg Except.ok (by decide))⟩

/-- Claim C3, counterexample: metadata whose name is present but **empty**
(`Some("")`) does not carry a non-empty table name, yet the operation succeeds
and issues one `create_table` request (whose table name is empty) — the source
only checks for `None`, not for emptiness. -/
theorem C3_counterexample :
    ({ name := some [], description := none } : DeltaTableMetaData).name = some []
    ∧ (record_table_storage_location exClientOk exCatalogId exTable
        { name := some [], description := none }).1 = Except.ok ()
    ∧ (record_table_storage_location exClientOk exCatalogId exTable
        { name := some [], description := none }).2.map (fun r => r.table_input.name)
      = [[]] :=
  ⟨rfl, rfl, rfl⟩

/-- Claim C3 (amended): for every call to `record_table_storage_location` whose
metadata carries **no** table name (`name` is `None`), the operation fails with
an inconsistent-metadata error naming `"name"` and issues no `create_table`
request. -/
theorem C3_no_name {ε : Type} (create_table : CreateTableRequest → Except ε Unit)
    (catalog_id : Str) (table : DeltaTable) (metadata : DeltaTableMetaData)
    (h : metadata.name = none) :
    record_table_storage_location create_table catalog_id table metadata
      = (Except.error (DataCatalogError.InconsistentDeltaTableMetadata ("name".toList)), []) :=
  record_none_eq create_table catalog_id table metadata h

/-- Witness for Claim C3 (amended). -/
theorem C3_no_name_witness :
    record_table_storage_location exClientOk exCatalogId exTable
      { name := none, description := none }
      = (Except.error (DataCatalogError.InconsistentDeltaTableMetadata ("name".toList)), []) :=
  C3_no_name exClientOk exCatalogId exTable { name := none, description := none } rfl

/-- Claim C4: a `get_table` response lacking the table entry fails with a
missing-metadata error naming `"Table"`; lacking the storage descriptor, with one
naming `"Storage Descriptor"`; lacking the location, with one naming
`"Location"`; in each case the result is an error, never a substituted default
location. -/
theorem C4_missing_metadata_errors {ε : Type} (catalog_id : Option Str)
    (database_name table_name : Str) :
    get_table_storage_location
        (fun _ => (Except.ok { table := none } : Except ε GetTableResponse))
        catalog_id database_name table_name
      = Except.error (DataCatalogError.MissingMetadata ("Table".toList))
    ∧ get_table_storage_location
        (fun _ => (Except.ok { table := some { storage_descriptor := none } }
          : Except ε GetTableResponse))
        catalog_id database_name table_name
      = Except.error (DataCatalogError.MissingMetadata ("Storage Descriptor".toList))
    ∧ get_table_storage_location
        (fun _ => (Except.ok (mkResponse none) : Except ε GetTableResponse))
        catalog_id database_name table_name
      = Except.error (DataCatalogError.MissingMetadata ("Location".toList)) :=
  ⟨rfl, rfl, rfl⟩

/-- Claim C5: when the metadata carries a table name, the single `create_table`
request issued has the table handle's URI as its storage descriptor location, the
supplied name and description, the supplied catalog id, and every other
attribute (owner, parameters, partition keys, retention, serde info, table type,
etc.) unset. -/
theorem C5_request_fields {ε : Type} (create_table : CreateTableRequest → Except ε Unit)
    (catalog_id : Str) (table : DeltaTable) (metadata : DeltaTableMetaData) (n : Str)
    (hname : metadata.name = some n) (r : CreateTableRequest)
    (hr : r ∈ (record_table_storage_location create_table catalog_id table metadata).2) :
    r.table_input.name = n
    ∧ r.table_input.description = metadata.description
    ∧ r.catalog_id = some catalog_id
    ∧ (∃ sd, r.table_input.storage_descriptor = some sd
        ∧ sd.location = some table.table_uri
        ∧ sd.bucket_columns = none ∧ sd.columns = none ∧ sd.compressed = none
        ∧ sd.input_format = none ∧ sd.number_of_buckets = none ∧ sd.output_format = none
        ∧ sd.parameters = none ∧ sd.schema_reference = none ∧ sd.serde_info = none
        ∧ sd.skewed_info = none ∧ sd.sort_columns = none
        ∧ sd.stored_as_sub_directories = none)
    ∧ r.table_input.owner = none ∧ r.table_input.parameters = none
    ∧ r.table_input.partition_keys = none ∧ r.table_input.retention = none
    ∧ r.table_input.last_access_time = none ∧ r.table_input.last_analyzed_time = none
    ∧ r.table_input.table_type = none ∧ r.table_input.target_table = none
    ∧ r.table_input.view_expanded_text = none ∧ r.table_input.view_original_text = none
    ∧ r.partition_indexes = none := by
  rw [record_some_snd create_table catalog_id table metadata n hname] at hr
  rcases List.mem_singleton.mp hr with rfl
  simp [mkCreateTableRequest]

/-- Witness for Claim C5 on concrete fixtures. -/
theorem C5_witness :
    exMetadata.name = some ("tbl".toList)
    ∧ exRequest ∈ (record_table_storage_location exClientOk exCatalogId exTable exMetadata).2
    ∧ exRequest.table_input.name = "tbl".toList
    ∧ exRequest.table_input.description = exMetadata.description
    ∧ exRequest.catalog_id = some exCatalogId :=
  ⟨rfl, by decide,
    (C5_request_fields exClientOk exCatalogId exTable exMetadata ("tbl".toList) rfl
      exRequest (by decide)).1,
    (C5_request_fields exClientOk exCatalogId exTable exMetadata ("tbl".toList) rfl
      exRequest (by decide)).2.1,
    (C5_request_fields exClientOk exCatalogId exTable exMetadata ("tbl".toList) rfl
      exRequest (by decide)).2.2.1⟩

/-- Claim C6: the returned location is exactly the result of first applying the
`s3a`-to-`s3` rewrite to the raw location and then stripping the placeholder
suffix from the rewritten string, in that order. -/
theorem C6_normalization_order {ε : Type} (catalog_id : Option Str)
    (database_name table_name : Str) (l : Str) :
    get_table_storage_location
      (fun _ => (Except.ok (mkResponse (some l)) : Except ε GetTableResponse))
      catalog_id database_name table_name
      = Except.ok (stripPlaceholder (replaceS3a l)) := rfl

/-- Claim C7: when the remote `create_table` call fails with `e`, the operation
returns a `GlueCreateTableError` carrying `e` as its cause, and exactly one
remote request was issued (no retry). -/
theorem C7_create_failure_wrapped {ε : Type} (e : ε) (catalog_id : Str)
    (table : DeltaTable) (metadata : DeltaTableMetaData) (n : Str)
    (hname : metadata.name = some n) :
    (record_table_storage_location (fun _ => (Except.error e : Except ε Unit))
        catalog_id table metadata).1
      = Except.error (DataCatalogError.GlueCreateTableError e)
    ∧ (record_table_storage_location (fun _ => (Except.error e : Except ε Unit))
        catalog_id table metadata).2.length = 1 := by
  constructor
  · exact record_some_fst_err _ catalog_id table metadata n hname e rfl
  · rw [record_some_snd _ catalog_id table metadata n hname]
    rfl

/-- Witness for Claim C7: a simulated remote failure on concrete fixtures. -/
theorem C7_witness :
    exMetadata.name = some ("tbl".toList)
    ∧ (record_table_storage_location (fun _ => (Except.error () : Except Unit Unit))
        exCatalogId exTable exMetadata).1
      = Except.error (DataCatalogError.GlueCreateTableError ())
    ∧ (record_table_storage_location (fun _ => (Except.error () : Except Unit Unit))
        exCatalogId exTable exMetadata).2.length = 1 :=
  ⟨rfl, (C7_create_failure_wrapped () exCatalogId exTable exMetadata ("tbl".toList) rfl).1,
    (C7_create_failure_wrapped () exCatalogId exTable exMetadata ("tbl".toList) rfl).2⟩

/-- Claim C8: every `create_table` request issued by
`record_table_storage_location` has the fixed database name `"unknown"`. -/
theorem C8_database_name_unknown {ε : Type} (create_table : CreateTableRequest → Except ε Unit)
    (catalog_id : Str) (table : DeltaTable) (metadata : DeltaTableMetaData)
    (r : CreateTableRequest)
    (hr : r ∈ (record_table_storage_location create_table catalog_id table metadata).2) :
    r.database_name = "unknown".toList := by
  cases hname : metadata.name with
  | none =>
    rw [record_none_eq create_table catalog_id table metadata hname] at hr
    simp at hr
  | some n =>
    rw [record_some_snd create_table catalog_id table metadata n hname] at hr
    rcases List.mem_singleton.mp hr with rfl
    rfl

/-- Witness for Claim C8 on concrete fixtures. -/
theorem C8_witness :
    exRequest ∈ (record_table_storage_location exClientOk exCatalogId exTable exMetadata).2
    ∧ exRequest.database_name = "unknown".toList :=
  ⟨by decide,
    C8_database_name_unknown exClientOk exCatalogId exTable exMetadata exRequest (by decide)⟩

/-- Claim C9: the construction branch of `create_glue_client` is strictly
determined by the presence of `AWS_WEB_IDENTITY_TOKEN_FILE` in the environment:
absent, the client is built from the region alone (default provider chain);
present, it is built with an explicit HTTP transport, the auto-refreshing
web-identity provider obtained from the ambient environment, and the region. -/
theorem C9_bootstrap_branch {κ : Type} (env : Str → Option Str)
    (http_new : Except κ HttpClient)
    (auto_new : WebIdentityProvider → Except κ (AutoRefreshingProvider WebIdentityProvider))
    (region : Region) :
    (env ("AWS_WEB_IDENTITY_TOKEN_FILE".toList) = none →
      create_glue_client env http_new auto_new region = Except.ok (GlueClient.new region))
    ∧ (∀ v http provider,
        env ("AWS_WEB_IDENTITY_TOKEN_FILE".toList) = some v →
        http_new = Except.ok http →
        auto_new WebIdentityProvider.from_k8s_env = Except.ok provider →
        create_glue_client env http_new auto_new region
          = Except.ok (GlueClient.new_with http provider region)) := by
  constructor
  · intro h
    unfold create_glue_client
    rw [h]
  · intro v http provider hv hh hp
    unfold create_glue_client get_web_identity_provider
    rw [hv, hh, hp]

/-- Witness for Claim C9: one environment without the token-file variable and
one with it. -/
theorem C9_witness :
    create_glue_client (fun _ => none) (Except.ok {} : Except Unit HttpClient)
        (fun p => Except.ok { inner := p }) Region.Default
      = Except.ok (GlueClient.new Region.Default)
    ∧ create_glue_client (fun _ => some []) (Except.ok {} : Except Unit HttpClient)
        (fun p => Except.ok { inner := p }) Region.Default
      = Except.ok
          (GlueClient.new_with {} { inner := WebIdentityProvider.from_k8s_env } Region.Default) :=
  ⟨(C9_bootstrap_branch (fun _ => none) (Except.ok {}) (fun p => Except.ok { inner := p })
      Region.Default).1 rfl,
    (C9_bootstrap_branch (fun _ => some []) (Except.ok {}) (fun p => Except.ok { inner := p })
      Region.Default).2 [] {} { inner := WebIdentityProvider.from_k8s_env } rfl rfl rfl⟩

/-- Claim C10: the placeholder stripping removes exactly one trailing copy of the
suffix — on a string ending with two consecutive copies only the final copy is
removed and the result still ends with the suffix — and on a location equal to
the suffix itself the empty string is returned (the guarded slice stays in
bounds). -/
theorem C10_strip_exactly_one :
    (∀ s : Str, (PLACEHOLDER_SUFFIX ++ PLACEHOLDER_SUFFIX).isSuffixOf s = true →
      stripPlaceholder s = s.take (s.length - PLACEHOLDER_SUFFIX.length)
        ∧ PLACEHOLDER_SUFFIX.isSuffixOf (stripPlaceholder s) = true)
    ∧ stripPlaceholder PLACEHOLDER_SUFFIX = []
    ∧ get_table_storage_location
        (fun _ => (Except.ok (mkResponse (some PLACEHOLDER_SUFFIX))
          : Except Unit GetTableResponse))
        none [] [] = Except.ok [] := by
  refine ⟨?_, by decide, rfl⟩
  intro s hs
  rcases exists_of_isSuffixOf hs with ⟨a, rfl⟩
  rw [← List.append_assoc]
  constructor
  · rw [stripPlaceholder_append, List.length_append, Nat.add_sub_cancel, List.take_left]
  · rw [stripPlaceholder_append]
    exact List.isSuffixOf_iff_suffix.mpr (List.suffix_append a PLACEHOLDER_SUFFIX)

/-- Witness for Claim C10 on the doubled suffix itself. -/
theorem C10_witness :
    (PLACEHOLDER_SUFFIX ++ PLACEHOLDER_SUFFIX).isSuffixOf
        (PLACEHOLDER_SUFFIX ++ PLACEHOLDER_SUFFIX) = true
    ∧ stripPlaceholder (PLACEHOLDER_SUFFIX ++ PLACEHOLDER_SUFFIX)
        = (PLACEHOLDER_SUFFIX ++ PLACEHOLDER_SUFFIX).take
            ((PLACEHOLDER_SUFFIX ++ PLACEHOLDER_SUFFIX).length - PLACEHOLDER_SUFFIX.length)
    ∧ PLACEHOLDER_SUFFIX.isSuffixOf
        (stripPlaceholder (PLACEHOLDER_SUFFIX ++ PLACEHOLDER_SUFFIX)) = true :=
  ⟨by decide,
    (C10_strip_exactly_one.1 (PLACEHOLDER_SUFFIX ++ PLACEHOLDER_SUFFIX) (by decide)).1,
    (C10_strip_exactly_one.1 (PLACEHOLDER_SUFFIX ++ PLACEHOLDER_SUFFIX) (by decide)).2⟩
